import Mathlib

/-!
Verification of the Misago forum application's thread/post consistency
engine: signal handlers in `misago/threads/signals.py` and the generic
thread views in `misago/threads/views/_generic.py`, shallowly embedded
as Lean functions over explicit row lists.
-/

namespace Misago

/-- A row of the Post table, with the fields the handlers touch plus a
few extra attributes used to state frame conditions. -/
structure PostRow where
  id : Nat
  thread_id : Nat
  category_id : Nat
  poster_id : Nat
  poster_name : String
  deriving DecidableEq, Repr

/-- A row of the Event table. -/
structure EventRow where
  id : Nat
  thread_id : Nat
  category_id : Nat
  author_name : String
  deriving DecidableEq, Repr

/-- A row of the Thread table, with the denormalized aggregate fields
the views filter and order by. -/
structure ThreadRow where
  id : Nat
  category_id : Nat
  starter_id : Nat
  title : String
  replies : Nat
  weight : Nat
  last_post_id : Nat
  is_moderated : Bool
  is_hidden : Bool
  deriving DecidableEq, Repr

/-- A row of the Forum (category) table as the views see it. -/
structure ForumRow where
  id : Nat
  role : String
  slug : String
  deriving DecidableEq, Repr

/-!
## `merge_threads_posts` (signals.py lines 22-25)

    other_thread.post_set.update(category=sender.category, thread=sender)

The sender thread's id and category id are passed explicitly; the bulk
update rewrites every post row whose `thread_id` is the other thread's.
-/

def merge_threads_posts (sender_id sender_category other_id : Nat)
    (posts : List PostRow) : List PostRow :=
  posts.map fun p =>
    if p.thread_id = other_id then
      { p with category_id := sender_category, thread_id := sender_id }
    else p

/-!
## `move_thread_content` (signals.py lines 28-31)

    sender.post_set.update(category=sender.category)
    sender.event_set.update(category=sender.category)
-/

def move_thread_content (sender_id sender_category : Nat)
    (posts : List PostRow) (events : List EventRow) :
    List PostRow × List EventRow :=
  (posts.map fun p =>
      if p.thread_id = sender_id then { p with category_id := sender_category }
      else p,
   events.map fun e =>
      if e.thread_id = sender_id then { e with category_id := sender_category }
      else e)

/-!
## `move_category_threads` (signals.py lines 43-49)

    Thread.objects.filter(category=sender).update(category=new_category)
    Post.objects.filter(category=sender).update(category=new_category)
    Event.objects.filter(category=sender).update(category=new_category)
-/

def move_category_threads (sender_cat new_cat : Nat)
    (threads : List ThreadRow) (posts : List PostRow) (events : List EventRow) :
    List ThreadRow × List PostRow × List EventRow :=
  (threads.map fun t =>
      if t.category_id = sender_cat then { t with category_id := new_cat }
      else t,
   posts.map fun p =>
      if p.category_id = sender_cat then { p with category_id := new_cat }
      else p,
   events.map fun e =>
      if e.category_id = sender_cat then { e with category_id := new_cat }
      else e)

/-!
## `delete_user_threads` (signals.py lines 52-78)

The handler deletes the user's threads (each deletion cascading to the
thread's posts, per the ORM's foreign-key cascade), then the user's
remaining posts, collecting the ids of affected categories and threads;
it then calls `synchronize()` and `save()` on every still-existing
thread whose id was collected and on every category whose id was
collected.  The model returns the new database state together with the
lists of thread ids and category ids that were synchronized and saved.
-/

structure DBState where
  threads : List ThreadRow
  posts : List PostRow
  category_ids : List Nat
  deriving DecidableEq, Repr

def delete_user_threads (user_id : Nat) (db : DBState) :
    DBState × List Nat × List Nat :=
  -- for thread in batch_delete(sender.thread_set.all(), 50): ...
  let user_threads := db.threads.filter fun t => decide (t.starter_id = user_id)
  let deleted_thread_ids : List Nat := user_threads.map (·.id)
  let recount_categories1 : List Nat := user_threads.map (·.category_id)
  let threads1 := db.threads.filter fun t => !decide (t.starter_id = user_id)
  -- deleting a thread cascades to its posts
  let posts1 := db.posts.filter fun p => !decide (p.thread_id ∈ deleted_thread_ids)
  -- for post in batch_delete(sender.post_set.all(), 50): ...
  let user_posts := posts1.filter fun p => decide (p.poster_id = user_id)
  let recount_categories : List Nat :=
    recount_categories1 ++ user_posts.map (·.category_id)
  let recount_threads : List Nat := user_posts.map (·.thread_id)
  let posts2 := posts1.filter fun p => !decide (p.poster_id = user_id)
  -- Thread.objects.filter(id__in=recount_threads): synchronize() and save()
  let synced_threads :=
    (threads1.filter fun t => decide (t.id ∈ recount_threads)).map (·.id)
  -- Category.objects.filter(id__in=recount_categories): synchronize() and save()
  let synced_categories :=
    db.category_ids.filter fun c => decide (c ∈ recount_categories)
  ({ threads := threads1, posts := posts2, category_ids := db.category_ids },
   synced_threads, synced_categories)

/-!
## Thread-listing views (`_generic.py`)
-/

structure ForumAcl where
  can_review_moderated_content : Bool
  can_hide_threads : Bool
  deriving DecidableEq, Repr

structure RequestUser where
  is_authenticated : Bool
  id : Nat
  deriving DecidableEq, Repr

/-- `ForumView.filter_all_querysets` (lines 221-243): permission-gated
visibility filter applied to the whole thread listing. -/
def filter_all_querysets (user : RequestUser) (acl : ForumAcl)
    (queryset : List ThreadRow) : List ThreadRow :=
  if user.is_authenticated then
    let can_mod := acl.can_review_moderated_content
    let can_hide := acl.can_hide_threads
    if !can_mod && !can_hide then
      queryset.filter fun t =>
        decide (t.starter_id = user.id) || (!t.is_moderated && !t.is_hidden)
    else if !can_mod then
      queryset.filter fun t => decide (t.starter_id = user.id) || !t.is_moderated
    else if !can_hide then
      queryset.filter fun t => decide (t.starter_id = user.id) || !t.is_hidden
    else
      queryset
  else
    let qs1 :=
      if !acl.can_review_moderated_content then
        queryset.filter fun t => !t.is_moderated
      else queryset
    if !acl.can_hide_threads then qs1.filter (fun t => !t.is_hidden) else qs1

/-- The first components of `OrderThreadsMixin.order_by` (lines 101-108). -/
def order_by_options : List String :=
  ["recently-replied", "last-replied", "most-replied",
   "least-replied", "newest", "oldest"]

/-- `OrderThreadsMixin.get_ordering` (lines 110-114); `none` models a
missing `sort` key in the URL kwargs. -/
def get_ordering (sort : Option String) : String :=
  match sort with
  | some s => if s ∈ order_by_options then s else "recently-replied"
  | none => "recently-replied"

/-- `ForumView.order_querysets` (lines 199-219).  A queryset is modelled
by its ordering-key list; each non-exclusive `if` of the source
reassigns both querysets when its ordering matches. -/
def order_querysets (order_by : String) (threads announcements : List String) :
    List String × List String :=
  let r0 := (threads, announcements)
  let r1 := if order_by = "recently-replied"
    then (["-weight", "-last_post"], ["-last_post"]) else r0
  let r2 := if order_by = "last-replied"
    then (["weight", "last_post"], ["last_post"]) else r1
  let r3 := if order_by = "most-replied"
    then (["-weight", "-replies"], ["-replies"]) else r2
  let r4 := if order_by = "least-replied"
    then (["weight", "replies"], ["replies"]) else r3
  let r5 := if order_by = "newest" then (["-weight", "-id"], ["-id"]) else r4
  let r6 := if order_by = "oldest" then (["weight", "id"], ["id"]) else r5
  r6

/-- `ForumMixin.fetch_forum` (lines 36-42): `get_object_or_404` with
`id=kwargs.get('forum_id'), role='forum'`; `none` models `Http404`. -/
def fetch_forum (forums : List ForumRow) (forum_id : Nat) : Option ForumRow :=
  forums.find? fun f => decide (f.id = forum_id) && decide (f.role = "forum")

/-- `ThreadMixin.fetch_thread` (lines 63-70): `get_object_or_404` with
`id=kwargs.get('thread_id')`; `none` models `Http404`. -/
def fetch_thread (threads : List ThreadRow) (thread_id : Nat) : Option ThreadRow :=
  threads.find? fun t => decide (t.id = thread_id)

/-- `ThreadsView.add_threads_reads` (lines 157-163): a first loop sets
every thread's `is_new` to `False`, then a second loop overwrites it
with `random.choice((True, False))`; the random stream is made an
explicit argument giving the draw for each loop index. -/
def add_threads_reads (threads : List ThreadRow) (random_choice : Nat → Bool) :
    List Bool :=
  let first_pass := threads.map fun _ => false
  (List.range first_pass.length).map random_choice

/-!
## Dispatch and editor mode (`_generic.py` lines 288-413)
-/

/-- Outcome of a view's `dispatch`: whether `real_dispatch` ran inside a
transaction block, the resulting database state, and the response or
propagated exception. -/
structure DispatchOutcome (σ ε ρ : Type) where
  used_atomic : Bool
  final_state : σ
  result : Except ε ρ

/-- `with atomic(): ...` — if the body raises, its state changes are
rolled back. The body is a state transformer returning its final
(possibly partially mutated) state and either a response or an
exception. -/
def run_atomic {σ ε ρ : Type} (body : σ → σ × Except ε ρ) (s : σ) :
    σ × Except ε ρ :=
  match body s with
  | (s2, Except.ok r) => (s2, Except.ok r)
  | (_, Except.error e) => (s, Except.error e)

/-- `ThreadView.dispatch` (lines 294-299): POST requests run
`real_dispatch` inside `atomic()`, others run it bare. -/
def ThreadView_dispatch {σ ε ρ : Type} (method : String)
    (real_dispatch : σ → σ × Except ε ρ) (s : σ) : DispatchOutcome σ ε ρ :=
  if method = "POST" then
    let r := run_atomic real_dispatch s
    ⟨true, r.1, r.2⟩
  else
    let r := real_dispatch s
    ⟨false, r.1, r.2⟩

/-- `EditorView.dispatch` (lines 372-377): same body as
`ThreadView.dispatch` in the source. -/
def EditorView_dispatch {σ ε ρ : Type} (method : String)
    (real_dispatch : σ → σ × Except ε ρ) (s : σ) : DispatchOutcome σ ε ρ :=
  if method = "POST" then
    let r := run_atomic real_dispatch s
    ⟨true, r.1, r.2⟩
  else
    let r := real_dispatch s
    ⟨false, r.1, r.2⟩

/-- The posting-mode constants imported from `misago.threads.posting`. -/
inductive PostingMode
  | START
  | REPLY
  | EDIT
  deriving DecidableEq, Repr

/-- Objects the editor's `find_mode` can bind to its locals. -/
inductive EditorObj
  | newThread (forum_id : Nat)
  | newPost (forum_id : Nat)
  | quotePost (id : Nat)
  | dbThread (t : ThreadRow)
  deriving DecidableEq, Repr

/-- The local variables of `EditorView.find_mode` at its `return`
statement (`none` = never assigned, so reading it raises
`UnboundLocalError`), plus the fetches performed: each entry is the
entity fetched and whether `select_for_update` was used. -/
structure FindModeLocals where
  mode : Option PostingMode
  forum : Option ForumRow
  thread : Option EditorObj
  post : Option EditorObj
  quote : Option EditorObj
  fetches : List (String × Bool)
  deriving DecidableEq, Repr

/-- `EditorView.find_mode` (lines 332-350).  `db_forum` stands for the
forum object the taken branch obtains (the fetched forum, or the
fetched thread's forum) and `db_thread` for the fetched thread. -/
def find_mode (method : String) (has_forum_id has_thread_id : Bool)
    (db_forum : ForumRow) (db_thread : ThreadRow) : FindModeLocals :=
  let is_post := decide (method = "POST")
  if has_forum_id then
    { mode := some PostingMode.START
      forum := some db_forum
      thread := some (EditorObj.newThread db_forum.id)
      post := some (EditorObj.newPost db_forum.id)
      quote := some (EditorObj.quotePost 0)
      fetches := [("forum", is_post)] }
  else if has_thread_id then
    { mode := none
      forum := some db_forum
      thread := some (EditorObj.dbThread db_thread)
      post := none
      quote := none
      fetches := [("thread", is_post)] }
  else
    { mode := none, forum := none, thread := none, post := none, quote := none,
      fetches := [] }

/-- The `return mode, forum, thread, post, quote` statement raises
`UnboundLocalError` exactly when one of the five locals was never
assigned. -/
def find_mode_raises_unbound_local (ls : FindModeLocals) : Bool :=
  ls.mode.isNone || ls.forum.isNone || ls.thread.isNone ||
    ls.post.isNone || ls.quote.isNone

/-!
## Concrete sample rows used to instantiate theorems
-/

def sampleThreadCat5 : ThreadRow :=
  { id := 1, category_id := 5, starter_id := 2, title := "T", replies := 3,
    weight := 0, last_post_id := 9, is_moderated := false, is_hidden := false }

def sampleThreadCat8 : ThreadRow :=
  { id := 1, category_id := 8, starter_id := 2, title := "T", replies := 3,
    weight := 0, last_post_id := 9, is_moderated := false, is_hidden := false }

def sampleForum : ForumRow := { id := 3, role := "forum", slug := "f" }

def sampleUserThread : ThreadRow :=
  { id := 1, category_id := 5, starter_id := 2, title := "M", replies := 0,
    weight := 0, last_post_id := 0, is_moderated := false, is_hidden := false }

def sampleOtherThread : ThreadRow :=
  { id := 10, category_id := 6, starter_id := 3, title := "U", replies := 0,
    weight := 0, last_post_id := 0, is_moderated := false, is_hidden := false }

def samplePostByUser : PostRow :=
  { id := 100, thread_id := 10, category_id := 6, poster_id := 2,
    poster_name := "u2" }

def sampleDB : DBState :=
  { threads := [sampleUserThread, sampleOtherThread],
    posts := [samplePostByUser], category_ids := [5, 6] }

def sampleRealDispatch : Nat → Nat × Except Unit Unit :=
  fun n => (n + 1, Except.error ())

/-!
## Theorems
-/

/-- C2: for a merge of thread O into thread T (distinct threads), the
`merge_threads_posts` handler leaves O with no posts, sends every former
post of O to thread T with T's category, and keeps every other post. -/
theorem merge_threads_posts_correct (sender_id sender_category other_id : Nat)
    (posts : List PostRow) (hne : sender_id ≠ other_id) :
    (∀ q ∈ merge_threads_posts sender_id sender_category other_id posts,
        q.thread_id ≠ other_id) ∧
    (∀ p ∈ posts, p.thread_id = other_id →
        ({ p with category_id := sender_category,
                  thread_id := sender_id } : PostRow) ∈
          merge_threads_posts sender_id sender_category other_id posts) ∧
    (∀ p ∈ posts, p.thread_id ≠ other_id →
        p ∈ merge_threads_posts sender_id sender_category other_id posts) := by
  refine ⟨?_, ?_, ?_⟩
  · intro q hq
    rw [merge_threads_posts, List.mem_map] at hq
    obtain ⟨p, hp, rfl⟩ := hq
    by_cases h : p.thread_id = other_id
    · simpa [h] using hne
    · simp [h]
  · intro p hp h
    rw [merge_threads_posts, List.mem_map]
    exact ⟨p, hp, by simp [h]⟩
  · intro p hp h
    rw [merge_threads_posts, List.mem_map]
    exact ⟨p, hp, by simp [h]⟩

/-- Witness for C2 at a concrete merge: thread 2's single post moves to
thread 1 and category 7. -/
theorem merge_threads_posts_correct_witness :
    ({ id := 10, thread_id := 1, category_id := 7, poster_id := 3,
       poster_name := "u" } : PostRow) ∈
      merge_threads_posts 1 7 2
        [{ id := 10, thread_id := 2, category_id := 4, poster_id := 3,
           poster_name := "u" }] :=
  (merge_threads_posts_correct 1 7 2
      [{ id := 10, thread_id := 2, category_id := 4, poster_id := 3,
         poster_name := "u" }] (by decide)).2.1
    { id := 10, thread_id := 2, category_id := 4, poster_id := 3,
      poster_name := "u" } (by simp) rfl

/-- C3: after `move_thread_content` runs for thread T, every post and
every event of T carries T's current category (and conversely the
updated rows for T's posts and events are present), restoring the
invariant that content rows share their thread's category. -/
theorem move_thread_content_correct (sender_id sender_category : Nat)
    (posts : List PostRow) (events : List EventRow) :
    (∀ q ∈ (move_thread_content sender_id sender_category posts events).1,
        q.thread_id = sender_id → q.category_id = sender_category) ∧
    (∀ e ∈ (move_thread_content sender_id sender_category posts events).2,
        e.thread_id = sender_id → e.category_id = sender_category) ∧
    (∀ p ∈ posts, p.thread_id = sender_id →
        ({ p with category_id := sender_category } : PostRow) ∈
          (move_thread_content sender_id sender_category posts events).1) ∧
    (∀ e ∈ events, e.thread_id = sender_id →
        ({ e with category_id := sender_category } : EventRow) ∈
          (move_thread_content sender_id sender_category posts events).2) := by
  refine ⟨?_, ?_, ?_, ?_⟩
  · intro q hq
    rw [move_thread_content] at hq
    simp only [List.mem_map] at hq
    obtain ⟨p, hp, rfl⟩ := hq
    by_cases h : p.thread_id = sender_id <;> simp [h]
  · intro e he
    rw [move_thread_content] at he
    simp only [List.mem_map] at he
    obtain ⟨e0, he0, rfl⟩ := he
    by_cases h : e0.thread_id = sender_id <;> simp [h]
  · intro p hp h
    rw [move_thread_content]
    simp only [List.mem_map]
    exact ⟨p, hp, by simp [h]⟩
  · intro e he h
    rw [move_thread_content]
    simp only [List.mem_map]
    exact ⟨e, he, by simp [h]⟩

/-- Witness for C3 at a concrete move: thread 4's post ends up in the
thread's new category 9. -/
theorem move_thread_content_correct_witness :
    ({ id := 2, thread_id := 4, category_id := 9, poster_id := 1,
       poster_name := "v" } : PostRow) ∈
      (move_thread_content 4 9
        [{ id := 2, thread_id := 4, category_id := 3, poster_id := 1,
           poster_name := "v" }] []).1 :=
  (move_thread_content_correct 4 9
      [{ id := 2, thread_id := 4, category_id := 3, poster_id := 1,
         poster_name := "v" }] []).2.2.1
    { id := 2, thread_id := 4, category_id := 3, poster_id := 1,
      poster_name := "v" } (by simp) rfl

/-- Zipping a list with its image under `f` pairs each element with its
image. -/
theorem zip_self_map {α β : Type} (l : List α) (f : α → β) :
    l.zip (l.map f) = l.map fun a => (a, f a) := by
  induction l with
  | nil => rfl
  | cons x xs ih => simp [ih]

/-- C4: `move_category_threads` rewrites the category to N on exactly
the thread, post and event rows whose category was S, preserves row
counts, and leaves every other field of every row (ids, titles, reply
counts, weights, thread assignments, flags, names) unchanged. -/
theorem move_category_threads_frame (S N : Nat)
    (threads : List ThreadRow) (posts : List PostRow)
    (events : List EventRow) :
    ((move_category_threads S N threads posts events).1.length =
        threads.length) ∧
    ((move_category_threads S N threads posts events).2.1.length =
        posts.length) ∧
    ((move_category_threads S N threads posts events).2.2.length =
        events.length) ∧
    (∀ tp ∈ threads.zip (move_category_threads S N threads posts events).1,
        tp.2.id = tp.1.id ∧ tp.2.starter_id = tp.1.starter_id ∧
        tp.2.title = tp.1.title ∧ tp.2.replies = tp.1.replies ∧
        tp.2.weight = tp.1.weight ∧ tp.2.last_post_id = tp.1.last_post_id ∧
        tp.2.is_moderated = tp.1.is_moderated ∧
        tp.2.is_hidden = tp.1.is_hidden ∧
        tp.2.category_id =
          (if tp.1.category_id = S then N else tp.1.category_id)) ∧
    (∀ pp ∈ posts.zip (move_category_threads S N threads posts events).2.1,
        pp.2.id = pp.1.id ∧ pp.2.thread_id = pp.1.thread_id ∧
        pp.2.poster_id = pp.1.poster_id ∧
        pp.2.poster_name = pp.1.poster_name ∧
        pp.2.category_id =
          (if pp.1.category_id = S then N else pp.1.category_id)) ∧
    (∀ ep ∈ events.zip (move_category_threads S N threads posts events).2.2,
        ep.2.id = ep.1.id ∧ ep.2.thread_id = ep.1.thread_id ∧
        ep.2.author_name = ep.1.author_name ∧
        ep.2.category_id =
          (if ep.1.category_id = S then N else ep.1.category_id)) := by
  refine ⟨?_, ?_, ?_, ?_, ?_, ?_⟩
  · simp [move_category_threads]
  · simp [move_category_threads]
  · simp [move_category_threads]
  · intro tp htp
    simp only [move_category_threads] at htp
    rw [zip_self_map, List.mem_map] at htp
    obtain ⟨t, ht, rfl⟩ := htp
    by_cases h : t.category_id = S <;> simp [h]
  · intro pp hpp
    simp only [move_category_threads] at hpp
    rw [zip_self_map, List.mem_map] at hpp
    obtain ⟨p, hp, rfl⟩ := hpp
    by_cases h : p.category_id = S <;> simp [h]
  · intro ep hep
    simp only [move_category_threads] at hep
    rw [zip_self_map, List.mem_map] at hep
    obtain ⟨e, he, rfl⟩ := hep
    by_cases h : e.category_id = S <;> simp [h]

/-- Witness for C4 at a concrete move of category 5's content to
category 8: the single thread keeps all fields except category. -/
theorem move_category_threads_frame_witness :
    sampleThreadCat8.id = sampleThreadCat5.id ∧
    sampleThreadCat8.starter_id = sampleThreadCat5.starter_id ∧
    sampleThreadCat8.title = sampleThreadCat5.title ∧
    sampleThreadCat8.replies = sampleThreadCat5.replies ∧
    sampleThreadCat8.weight = sampleThreadCat5.weight ∧
    sampleThreadCat8.last_post_id = sampleThreadCat5.last_post_id ∧
    sampleThreadCat8.is_moderated = sampleThreadCat5.is_moderated ∧
    sampleThreadCat8.is_hidden = sampleThreadCat5.is_hidden ∧
    sampleThreadCat8.category_id =
      (if sampleThreadCat5.category_id = 5 then 8
       else sampleThreadCat5.category_id) :=
  (move_category_threads_frame 5 8 [sampleThreadCat5] [] []).2.2.2.1
    (sampleThreadCat5, sampleThreadCat8)
    (by simp [move_category_threads, sampleThreadCat5, sampleThreadCat8])

/-- C5: when the forum ACL grants neither `can_review_moderated_content`
nor `can_hide_threads`, `filter_all_querysets` keeps, for an
authenticated user, exactly the threads the user started or that are
neither moderated nor hidden, and for an anonymous user exactly the
threads that are neither moderated nor hidden, with no own-thread
exception. -/
theorem filter_all_querysets_correct (user : RequestUser) (acl : ForumAcl)
    (qs : List ThreadRow)
    (hmod : acl.can_review_moderated_content = false)
    (hhide : acl.can_hide_threads = false) :
    (user.is_authenticated = true →
      ∀ t, t ∈ filter_all_querysets user acl qs ↔
        t ∈ qs ∧ (t.starter_id = user.id ∨
          (t.is_moderated = false ∧ t.is_hidden = false))) ∧
    (user.is_authenticated = false →
      ∀ t, t ∈ filter_all_querysets user acl qs ↔
        t ∈ qs ∧ t.is_moderated = false ∧ t.is_hidden = false) := by
  constructor
  · intro hauth t
    simp [filter_all_querysets, hauth, hmod, hhide, List.mem_filter]
  · intro hauth t
    simp [filter_all_querysets, hauth, hmod, hhide, List.mem_filter]
    exact fun _ => and_comm

/-- Witness for C5: an authenticated user with no moderation permissions
still sees a clean thread they did not start. -/
theorem filter_all_querysets_correct_witness :
    sampleThreadCat5 ∈
      filter_all_querysets { is_authenticated := true, id := 7 }
        { can_review_moderated_content := false, can_hide_threads := false }
        [sampleThreadCat5] :=
  ((filter_all_querysets_correct { is_authenticated := true, id := 7 }
      { can_review_moderated_content := false, can_hide_threads := false }
      [sampleThreadCat5] rfl rfl).1 rfl sampleThreadCat5).mpr
    ⟨by simp, Or.inr (by constructor <;> rfl)⟩

/-- C6: `get_ordering` returns the requested sort key exactly when it is
one of the six recognised orderings and the default "recently-replied"
otherwise (including a missing key), and `order_querysets` assigns the
ordering-key pair of the chosen ordering to the threads and
announcements querysets. -/
theorem get_ordering_order_querysets_correct :
    (∀ s, s ∈ order_by_options → get_ordering (some s) = s) ∧
    (∀ s, s ∉ order_by_options →
      get_ordering (some s) = "recently-replied") ∧
    get_ordering none = "recently-replied" ∧
    (∀ ths anns : List String,
      order_querysets "recently-replied" ths anns =
        (["-weight", "-last_post"], ["-last_post"]) ∧
      order_querysets "last-replied" ths anns =
        (["weight", "last_post"], ["last_post"]) ∧
      order_querysets "most-replied" ths anns =
        (["-weight", "-replies"], ["-replies"]) ∧
      order_querysets "least-replied" ths anns =
        (["weight", "replies"], ["replies"]) ∧
      order_querysets "newest" ths anns = (["-weight", "-id"], ["-id"]) ∧
      order_querysets "oldest" ths anns = (["weight", "id"], ["id"])) := by
  refine ⟨?_, ?_, rfl, ?_⟩
  · intro s hs
    simp [get_ordering, hs]
  · intro s hs
    simp [get_ordering, hs]
  · intro ths anns
    refine ⟨?_, ?_, ?_, ?_, ?_, ?_⟩ <;> simp [order_querysets]

/-- Witness for C6: a recognised key is returned as-is, an unknown key
falls back to the default, and the most-replied ordering key pair. -/
theorem get_ordering_order_querysets_correct_witness :
    get_ordering (some "newest") = "newest" ∧
    get_ordering (some "bogus") = "recently-replied" ∧
    order_querysets "most-replied" [] [] =
      (["-weight", "-replies"], ["-replies"]) :=
  ⟨get_ordering_order_querysets_correct.1 "newest" (by decide),
   get_ordering_order_querysets_correct.2.1 "bogus" (by decide),
   (get_ordering_order_querysets_correct.2.2.2 [] []).2.2.1⟩

/-- C8: `fetch_forum` yields a 404 (`none`) exactly when no forum row
has the requested id with role "forum", `fetch_thread` yields a 404
exactly when no thread row has the requested id, and when either
returns an object it is a matching row. -/
theorem fetch_404_correct (forums : List ForumRow) (threads : List ThreadRow)
    (fid tid : Nat) :
    (fetch_forum forums fid = none ↔
      ∀ f ∈ forums, ¬(f.id = fid ∧ f.role = "forum")) ∧
    (∀ f, fetch_forum forums fid = some f →
      f ∈ forums ∧ f.id = fid ∧ f.role = "forum") ∧
    (fetch_thread threads tid = none ↔ ∀ t ∈ threads, ¬t.id = tid) ∧
    (∀ t, fetch_thread threads tid = some t → t ∈ threads ∧ t.id = tid) := by
  refine ⟨?_, ?_, ?_, ?_⟩
  · rw [fetch_forum, List.find?_eq_none]
    simp
  · intro f hf
    rw [fetch_forum] at hf
    have h1 := List.find?_some hf
    simp only [Bool.and_eq_true, decide_eq_true_eq] at h1
    exact ⟨List.mem_of_find?_eq_some hf, h1⟩
  · rw [fetch_thread, List.find?_eq_none]
    simp
  · intro t ht
    rw [fetch_thread] at ht
    have h1 := List.find?_some ht
    simp only [decide_eq_true_eq] at h1
    exact ⟨List.mem_of_find?_eq_some ht, h1⟩

/-- Witness for C8: looking up forum id 3 among a single non-forum row
is a 404, and looking up an existing thread returns it. -/
theorem fetch_404_correct_witness :
    (fetch_forum [{ id := 3, role := "category", slug := "c" }] 3 = none ↔
      ∀ f ∈ [({ id := 3, role := "category", slug := "c" } : ForumRow)],
        ¬(f.id = 3 ∧ f.role = "forum")) ∧
    (sampleThreadCat5 ∈ [sampleThreadCat5] ∧ sampleThreadCat5.id = 1) :=
  ⟨(fetch_404_correct [{ id := 3, role := "category", slug := "c" }] [] 3 0).1,
   (fetch_404_correct [] [sampleThreadCat5] 0 1).2.2.2 sampleThreadCat5
     (by simp [fetch_thread, sampleThreadCat5])⟩

/-- C7: on a POST request both `ThreadView.dispatch` and
`EditorView.dispatch` run `real_dispatch` inside a transaction block
(so an exception leaves the database state unchanged) and every fetch
performed by `EditorView.find_mode` uses `select_for_update`; on any
other method no transaction block is opened and no fetch takes a row
lock. -/
theorem dispatch_transactions_correct {σ ε ρ : Type} (method : String)
    (rd : σ → σ × Except ε ρ) (s : σ) (hf ht : Bool)
    (f : ForumRow) (t : ThreadRow) :
    (method = "POST" →
       (ThreadView_dispatch method rd s).used_atomic = true ∧
       (EditorView_dispatch method rd s).used_atomic = true ∧
       (∀ s2 e, rd s = (s2, Except.error e) →
          (ThreadView_dispatch method rd s).final_state = s ∧
          (EditorView_dispatch method rd s).final_state = s) ∧
       (∀ fe ∈ (find_mode method hf ht f t).fetches, fe.2 = true)) ∧
    (method ≠ "POST" →
       (ThreadView_dispatch method rd s).used_atomic = false ∧
       (EditorView_dispatch method rd s).used_atomic = false ∧
       (∀ fe ∈ (find_mode method hf ht f t).fetches, fe.2 = false)) := by
  constructor
  · intro hm
    subst hm
    refine ⟨by simp [ThreadView_dispatch], by simp [EditorView_dispatch],
      ?_, ?_⟩
    · intro s2 e he
      constructor <;>
        simp [ThreadView_dispatch, EditorView_dispatch, run_atomic, he]
    · intro fe hfe
      by_cases h1 : hf = true
      · simp [find_mode, h1] at hfe
        simp [hfe]
      · by_cases h2 : ht = true
        · simp [find_mode, h1, h2] at hfe
          simp [hfe]
        · simp [find_mode, h1, h2] at hfe
  · intro hm
    refine ⟨by simp [ThreadView_dispatch, hm],
      by simp [EditorView_dispatch, hm], ?_⟩
    intro fe hfe
    by_cases h1 : hf = true
    · simp [find_mode, h1] at hfe
      simp [hfe, hm]
    · by_cases h2 : ht = true
      · simp [find_mode, h1, h2] at hfe
        simp [hfe, hm]
      · simp [find_mode, h1, h2] at hfe

/-- Witness for C7: a failing POST body leaves the state at its initial
value 0, and a GET request opens no transaction. -/
theorem dispatch_transactions_correct_witness :
    (ThreadView_dispatch "POST" sampleRealDispatch 0).final_state = 0 ∧
    (ThreadView_dispatch "GET" sampleRealDispatch 0).used_atomic = false :=
  ⟨(((dispatch_transactions_correct "POST" sampleRealDispatch 0 true false
        sampleForum sampleThreadCat5).1 rfl).2.2.1 1 () rfl).1,
   ((dispatch_transactions_correct "GET" sampleRealDispatch 0 true false
        sampleForum sampleThreadCat5).2 (by decide)).1⟩

/-- C9 (code bug): `add_threads_reads` draws each listed thread's
`is_new` flag from `random.choice`, so two runs on the same request and
the same thread list can disagree — the flags are not a deterministic
function of the request and the threads. -/
theorem add_threads_reads_nondeterministic :
    add_threads_reads [sampleThreadCat5] (fun _ => true) ≠
      add_threads_reads [sampleThreadCat5] (fun _ => false) := by
  decide

/-- C10: when the URL kwargs hold `thread_id` but not `forum_id`,
`find_mode` reaches its return statement with the locals `mode`, `post`
and `quote` never assigned, so the return raises `UnboundLocalError`;
whenever `forum_id` is absent the return raises, and only the
`forum_id` (START) branch yields all five locals defined. -/
theorem find_mode_unbound_locals (method : String) (hf ht : Bool)
    (f : ForumRow) (t : ThreadRow) :
    (hf = false → ht = true →
       (find_mode method hf ht f t).mode = none ∧
       (find_mode method hf ht f t).post = none ∧
       (find_mode method hf ht f t).quote = none ∧
       find_mode_raises_unbound_local (find_mode method hf ht f t) = true) ∧
    (hf = false →
       find_mode_raises_unbound_local (find_mode method hf ht f t) = true) ∧
    (hf = true →
       (find_mode method hf ht f t).mode.isSome = true ∧
       (find_mode method hf ht f t).forum.isSome = true ∧
       (find_mode method hf ht f t).thread.isSome = true ∧
       (find_mode method hf ht f t).post.isSome = true ∧
       (find_mode method hf ht f t).quote.isSome = true ∧
       find_mode_raises_unbound_local (find_mode method hf ht f t) =
         false) := by
  refine ⟨?_, ?_, ?_⟩
  · intro h1 h2
    subst h1; subst h2
    simp [find_mode, find_mode_raises_unbound_local]
  · intro h1
    subst h1
    cases ht <;> simp [find_mode, find_mode_raises_unbound_local]
  · intro h1
    subst h1
    simp [find_mode, find_mode_raises_unbound_local]

/-- Witness for C10: a GET editor request addressed by `thread_id` only
hits the unbound-local failure. -/
theorem find_mode_unbound_locals_witness :
    (find_mode "GET" false true sampleForum sampleThreadCat5).mode = none ∧
    find_mode_raises_unbound_local
      (find_mode "GET" false true sampleForum sampleThreadCat5) = true :=
  ⟨((find_mode_unbound_locals "GET" false true sampleForum
      sampleThreadCat5).1 rfl rfl).1,
   ((find_mode_unbound_locals "GET" false true sampleForum
      sampleThreadCat5).1 rfl rfl).2.2.2⟩

/-- C1: after `delete_user_threads` runs for a user — assuming primary
keys are unique and every post's denormalized category matches its
thread's — every still-existing thread that lost one of that user's
posts has `synchronize()` called and is saved, and every category that
lost one of that user's threads or posts has `synchronize()` called and
is saved. -/
theorem delete_user_threads_synchronizes (user_id : Nat) (db : DBState)
    (hids : (db.threads.map ThreadRow.id).Nodup)
    (hinv : ∀ p ∈ db.posts, ∀ t ∈ db.threads, t.id = p.thread_id →
      t.category_id = p.category_id) :
    (∀ t ∈ (delete_user_threads user_id db).1.threads,
      (∃ p ∈ db.posts, p.thread_id = t.id ∧
        p ∉ (delete_user_threads user_id db).1.posts) →
      t.id ∈ (delete_user_threads user_id db).2.1) ∧
    (∀ c ∈ db.category_ids,
      ((∃ t ∈ db.threads, t ∉ (delete_user_threads user_id db).1.threads ∧
          t.category_id = c) ∨
       (∃ p ∈ db.posts, p ∉ (delete_user_threads user_id db).1.posts ∧
          p.category_id = c)) →
      c ∈ (delete_user_threads user_id db).2.2) := by
  constructor
  · intro t ht hp
    obtain ⟨p, hpmem, hpt, hpdel⟩ := hp
    have ht2 : t ∈ db.threads ∧ ¬t.starter_id = user_id := by
      simpa [delete_user_threads, List.mem_filter] using ht
    by_cases hcas : p.thread_id ∈
        ((db.threads.filter fun x =>
            decide (x.starter_id = user_id)).map (·.id))
    · exfalso
      rw [List.mem_map] at hcas
      obtain ⟨u, hu, huid⟩ := hcas
      rw [List.mem_filter] at hu
      have huser : u.starter_id = user_id := by simpa using hu.2
      have hut : u = t :=
        List.inj_on_of_nodup_map hids hu.1 ht2.1 (by rw [huid, hpt])
      rw [hut] at huser
      exact ht2.2 huser
    · have hposter : p.poster_id = user_id := by
        by_contra hnp
        apply hpdel
        show p ∈ (delete_user_threads user_id db).1.posts
        simp only [delete_user_threads]
        rw [List.mem_filter]
        exact ⟨List.mem_filter.mpr ⟨hpmem, by simpa using hcas⟩,
          by simpa using hnp⟩
      simp only [delete_user_threads]
      rw [List.mem_map]
      refine ⟨t, ?_, rfl⟩
      rw [List.mem_filter]
      constructor
      · rw [List.mem_filter]
        exact ⟨ht2.1, by simpa using ht2.2⟩
      · simp only [decide_eq_true_eq]
        rw [List.mem_map]
        refine ⟨p, ?_, hpt⟩
        rw [List.mem_filter]
        exact ⟨List.mem_filter.mpr ⟨hpmem, by simpa using hcas⟩,
          by simpa using hposter⟩
  · intro c hc hdel
    simp only [delete_user_threads]
    rw [List.mem_filter]
    refine ⟨hc, ?_⟩
    simp only [decide_eq_true_eq]
    rw [List.mem_append]
    rcases hdel with hth | hpo
    · obtain ⟨u, hu, hunotin, hcat⟩ := hth
      left
      rw [List.mem_map]
      refine ⟨u, ?_, hcat⟩
      rw [List.mem_filter]
      refine ⟨hu, ?_⟩
      simp only [decide_eq_true_eq]
      by_contra hns
      apply hunotin
      show u ∈ (delete_user_threads user_id db).1.threads
      simp only [delete_user_threads]
      rw [List.mem_filter]
      exact ⟨hu, by simpa using hns⟩
    · obtain ⟨p, hpmem, hpdel, hcat⟩ := hpo
      by_cases hcas : p.thread_id ∈
          ((db.threads.filter fun x =>
              decide (x.starter_id = user_id)).map (·.id))
      · left
        rw [List.mem_map] at hcas ⊢
        obtain ⟨u, hu, huid⟩ := hcas
        refine ⟨u, hu, ?_⟩
        have hu2 : u ∈ db.threads := (List.mem_filter.mp hu).1
        have hcat2 := hinv p hpmem u hu2 huid
        rw [hcat2, hcat]
      · right
        have hposter : p.poster_id = user_id := by
          by_contra hnp
          apply hpdel
          show p ∈ (delete_user_threads user_id db).1.posts
          simp only [delete_user_threads]
          rw [List.mem_filter]
          exact ⟨List.mem_filter.mpr ⟨hpmem, by simpa using hcas⟩,
            by simpa using hnp⟩
        rw [List.mem_map]
        refine ⟨p, ?_, hcat⟩
        rw [List.mem_filter]
        exact ⟨List.mem_filter.mpr ⟨hpmem, by simpa using hcas⟩,
          by simpa using hposter⟩

/-- Witness for C1: user 2's post in thread 10 gets that surviving
thread synchronized, and category 5 — which lost user 2's own thread —
gets synchronized as well. -/
theorem delete_user_threads_synchronizes_witness :
    10 ∈ (delete_user_threads 2 sampleDB).2.1 ∧
    5 ∈ (delete_user_threads 2 sampleDB).2.2 :=
  ⟨(delete_user_threads_synchronizes 2 sampleDB (by decide) (by decide)).1
      sampleOtherThread (by decide)
      ⟨samplePostByUser, by decide, by decide, by decide⟩,
   (delete_user_threads_synchronizes 2 sampleDB (by decide) (by decide)).2
      5 (by decide)
      (Or.inl ⟨sampleUserThread, by decide, by decide, by decide⟩)⟩

end Misago
